import Mathlib

/-!
# Verification of the `gtin` library

A shallow embedding of the `gtin` Rust library (GTIN barcode parsing,
validation, conversion and classification) together with proofs about it.

Digits are modelled as `Nat` (the Rust code stores them as `u8`; every
digit produced by the library is `< 10`).  The `u32` running sum inside
the checksum routine is modelled with an explicit `% 2 ^ 32`.
-/

namespace Gtin

/-- Embeds `util::extract_digits`: keep the ASCII decimal digits of the
input, in order, converted to their numeric values. -/
def extract_digits (input : String) : List Nat :=
  (input.data.filter (fun c => c.isDigit)).map (fun c => c.toNat - 48)

/-- The indexed weighted sum performed by
`digits.iter().rev().enumerate().map(...).sum()` inside
`util::calculate_checksum_digit`, after the `rev()`: the first argument
is the running index of `enumerate`. -/
def weightedAux : Nat → List Nat → Nat
  | _, [] => 0
  | i, d :: rest => (if i % 2 = 0 then d * 3 else d) + weightedAux (i + 1) rest

/-- The full weighted sum of `util::calculate_checksum_digit` (reversal
included). -/
def weightedSum (digits : List Nat) : Nat :=
  weightedAux 0 digits.reverse

/-- Embeds `util::calculate_checksum_digit`.  The Rust sum is a `u32`,
hence the `% 2 ^ 32`; the final steps `(10 - (sum % 10) as u8) % 10`
never underflow or overflow `u8`, so they are plain `Nat` arithmetic. -/
def calculate_checksum_digit (digits : List Nat) : Nat :=
  (10 - (weightedSum digits % 2 ^ 32) % 10) % 10

/-- Embeds `util::validate_gtin`: length in `[8, 14]` and the last digit
equals the checksum of the preceding ones (`digits[..len - 1]` is
`dropLast`, `digits[len - 1]` is the last element). -/
def validate_gtin (digits : List Nat) : Bool :=
  if digits.length < 8 || digits.length > 14 then false
  else digits.getLastD 0 == calculate_checksum_digit digits.dropLast

/-- Embeds `util::digits_to_string`: each digit `d` becomes the character
`(d + b'0') as char` (a wrapping `u8` addition, hence the `% 256`). -/
def digits_to_string (digits : List Nat) : String :=
  String.mk (digits.map (fun d => Char.ofNat ((d + 48) % 256)))

-- sanity checks against the repository's own test data
example : extract_digits "0 71720 53977 4" = [0, 7, 1, 7, 2, 0, 5, 3, 9, 7, 7, 4] := by decide
example : validate_gtin (extract_digits "071720539774") = true := by decide
example : validate_gtin (extract_digits "071720539775") = false := by decide
example : validate_gtin (extract_digits "8595701530526") = true := by decide
example : digits_to_string [0, 7, 1, 7, 2, 0, 5, 3, 9, 7, 7, 4] = "071720539774" := by decide

/-- Embeds the `GtinError` enum. -/
inductive GtinError where
  | InvalidLength (n : Nat)
  | InvalidChecksum
  | ConversionFailed
deriving DecidableEq, Repr

/-- Embeds the `GTIN` enum.  The Rust payloads are fixed-size arrays
(`[u8; 8]`, `[u8; 12]`, ...); here they are lists, with the length
constraint carried as a hypothesis where a proof needs it. -/
inductive GTIN where
  | UpcE (d : List Nat)
  | UpcA (d : List Nat)
  | Ean8 (d : List Nat)
  | Ean13 (d : List Nat)
  | Gtin14 (d : List Nat)
deriving DecidableEq, Repr

deriving instance DecidableEq for Except

/-- Embeds `GTIN::digits`. -/
def GTIN.digits : GTIN → List Nat
  | .UpcE d => d
  | .UpcA d => d
  | .Ean8 d => d
  | .Ean13 d => d
  | .Gtin14 d => d

/-- Embeds `util::expand_upce_to_upca`.  Slice indexing on the six
middle digits becomes `getD _ 0` (the slice always has length 6 when
reached).  The Rust error payloads are strings and are kept as such. -/
def expand_upce_to_upca (upce : List Nat) : Except String GTIN :=
  if upce.length < 6 || upce.length > 8 then .error "Invalid UPC-E length"
  else
    let middle_digits :=
      if upce.length = 6 then upce
      else if upce.length = 7 then upce.take 6
      else (upce.drop 1).take 6
    let m0 := middle_digits.getD 0 0
    let m1 := middle_digits.getD 1 0
    let m2 := middle_digits.getD 2 0
    let m3 := middle_digits.getD 3 0
    let m4 := middle_digits.getD 4 0
    let m5 := middle_digits.getD 5 0
    let pair : List Nat × List Nat :=
      if m5 = 0 ∨ m5 = 1 ∨ m5 = 2 then ([m0, m1, m5, 0, 0], [0, 0, m2, m3, m4])
      else if m5 = 3 then ([m0, m1, m2, 0, 0], [0, 0, 0, m3, m4])
      else if m5 = 4 then ([m0, m1, m2, m3, 0], [0, 0, 0, 0, m4])
      else ([m0, m1, m2, m3, m4], [0, 0, 0, 0, m5])
    let new_upca_digits := 0 :: (pair.1 ++ pair.2)
    let check_digit := calculate_checksum_digit new_upca_digits
    let full := new_upca_digits ++ [check_digit]
    if full.length ≠ 12 then .error "Failed to construct valid UPC-A"
    else .ok (.UpcA (full.take 12))

/-- Embeds `TryFrom<&str> for GTIN` (also backing `FromStr` and the
serde `Deserialize`).  The Rust `match` on the digit count is an
ordered dispatch over the literals 8, 11, 12, 13, 14 with a catch-all,
rendered as an `if` chain; `digits.insert(0, 0)` is `0 :: ds` and
`digits[1..]` is `ds.tail`. -/
def tryFrom (value : String) : Except GtinError GTIN :=
  let ds := extract_digits value
  if !validate_gtin ds then
    if ds.length < 8 || ds.length > 14 then .error (.InvalidLength ds.length)
    else .error .InvalidChecksum
  else if ds.length = 8 then
    if ds.headD 0 ≠ 0 then .ok (.Ean8 ds) else .ok (.UpcE ds)
  else if ds.length = 11 then .ok (.UpcA (0 :: ds))
  else if ds.length = 12 then .ok (.UpcA ds)
  else if ds.length = 13 then
    if ds.headD 0 = 0 then .ok (.UpcA ds.tail) else .ok (.Ean13 ds)
  else if ds.length = 14 then .ok (.Gtin14 ds)
  else .error (.InvalidLength ds.length)

/-- Embeds `GTIN::parse_ean8`. -/
def GTIN.parse_ean8 (input : String) : Except GtinError GTIN :=
  let ds := extract_digits input
  if ds.length ≠ 8 then .error (.InvalidLength ds.length)
  else if !validate_gtin ds then .error .InvalidChecksum
  else .ok (.Ean8 ds)

/-- Embeds `GTIN::parse_upce`. -/
def GTIN.parse_upce (input : String) : Except GtinError GTIN :=
  let ds := extract_digits input
  if ds.length ≠ 8 then .error (.InvalidLength ds.length)
  else if !validate_gtin ds then .error .InvalidChecksum
  else .ok (.UpcE ds)

/-- Embeds the `Display` implementation (also backing the serde
`Serialize`): the canonical text form is the digits concatenated. -/
def GTIN.toText (g : GTIN) : String :=
  digits_to_string g.digits

/-- Embeds `GTIN::as_ean13`.  Writing the 12 UPC-A digits into slots
`1..13` of a zeroed 13-array is prepending a `0` (payloads are 12
digits long whenever this branch runs). -/
def GTIN.as_ean13 (g : GTIN) : Option GTIN :=
  match g with
  | .Ean13 _ => some g
  | .UpcA d => some (.Ean13 (0 :: d))
  | .UpcE d =>
    match expand_upce_to_upca d with
    | .ok u => some (.Ean13 (0 :: u.digits))
    | .error _ => none
  | _ => none

/-- Embeds `GTIN::gs1_prefix` (renamed here): the 3-digit GS1 prefix of
each variant, with UPC-E expanded to UPC-A first (`None` if the
expansion fails, per the `?` operator). -/
def GTIN.gs1Pre : GTIN → Option (List Nat)
  | .Ean13 d => some [d.getD 0 0, d.getD 1 0, d.getD 2 0]
  | .UpcA d => some [0, d.getD 0 0, d.getD 1 0]
  | .UpcE d =>
    match expand_upce_to_upca d with
    | .ok u => some [0, u.digits.getD 0 0, u.digits.getD 1 0]
    | .error _ => none
  | .Ean8 d => some [d.getD 0 0, d.getD 1 0, d.getD 2 0]
  | .Gtin14 d => some [d.getD 1 0, d.getD 2 0, d.getD 3 0]

/-- Embeds the `NumberSystem` enum. -/
inductive NumberSystem where
  | General
  | StoreUse
  | Coupon
  | Drug
  | Issn
  | Isbn
  | Refund
  | Unknown
deriving DecidableEq, Repr

/-- Embeds `NumberSystem::from_prefix` (renamed here): the Rust `match`
over disjoint numeric ranges becomes an `if` chain. -/
def NumberSystem.fromPre (p : List Nat) : NumberSystem :=
  if p.length ≠ 3 then .Unknown
  else
    let number := p.getD 0 0 * 100 + p.getD 1 0 * 10 + p.getD 2 0
    if (20 ≤ number ∧ number ≤ 29) ∨ (40 ≤ number ∧ number ≤ 49) ∨
        (200 ≤ number ∧ number ≤ 299) then .StoreUse
    else if 30 ≤ number ∧ number ≤ 39 then .Drug
    else if (50 ≤ number ∧ number ≤ 59) ∨ (981 ≤ number ∧ number ≤ 984) ∨
        (990 ≤ number ∧ number ≤ 999) then .Coupon
    else if number = 977 then .Issn
    else if 978 ≤ number ∧ number ≤ 979 then .Isbn
    else if number = 980 then .Refund
    else .General

/-- Embeds `GTIN::number_system`. -/
def GTIN.number_system (g : GTIN) : NumberSystem :=
  match g.gs1Pre with
  | some p => NumberSystem.fromPre p
  | none => .Unknown

/-- The country range table inside `GTIN::country_code`: the Rust
`match` over disjoint numeric ranges, as an `if` chain in source
order. -/
def countryNum (number : Nat) : Option String :=
  if number ≤ 139 then some "US"
  else if 300 ≤ number ∧ number ≤ 379 then some "FR"
  else if number = 380 then some "BG"
  else if number = 383 then some "SI"
  else if number = 385 then some "HR"
  else if number = 387 then some "BA"
  else if number = 389 then some "ME"
  else if number = 390 then some "KOSOVO"
  else if 400 ≤ number ∧ number ≤ 440 then some "DE"
  else if (450 ≤ number ∧ number ≤ 459) ∨ (490 ≤ number ∧ number ≤ 499) then some "JP"
  else if 460 ≤ number ∧ number ≤ 469 then some "RU"
  else if number = 470 then some "KG"
  else if number = 471 then some "TW"
  else if number = 474 then some "EE"
  else if 500 ≤ number ∧ number ≤ 509 then some "GB"
  else if 520 ≤ number ∧ number ≤ 521 then some "GR"
  else if number = 539 then some "IE"
  else if 540 ≤ number ∧ number ≤ 549 then some "BE"
  else if 570 ≤ number ∧ number ≤ 579 then some "DK"
  else if number = 590 then some "PL"
  else if number = 599 then some "HU"
  else if number = 618 then some "CI"
  else if number = 619 then some "TN"
  else if 640 ≤ number ∧ number ≤ 649 then some "FI"
  else if 700 ≤ number ∧ number ≤ 709 then some "NO"
  else if 730 ≤ number ∧ number ≤ 739 then some "SE"
  else if number = 742 then some "HN"
  else if number = 750 then some "MX"
  else if 754 ≤ number ∧ number ≤ 755 then some "CA"
  else if number = 759 then some "VE"
  else if 760 ≤ number ∧ number ≤ 769 then some "CH"
  else if number = 773 then some "UY"
  else if 789 ≤ number ∧ number ≤ 790 then some "BR"
  else if 800 ≤ number ∧ number ≤ 839 then some "IT"
  else if 840 ≤ number ∧ number ≤ 849 then some "ES"
  else if number = 858 then some "SK"
  else if number = 859 then some "CZ"
  else if number = 860 then some "RS"
  else if 870 ≤ number ∧ number ≤ 879 then some "NL"
  else if number = 885 then some "TH"
  else if number = 888 then some "SG"
  else if 900 ≤ number ∧ number ≤ 919 then some "AT"
  else if 930 ≤ number ∧ number ≤ 939 then some "AU"
  else if 940 ≤ number ∧ number ≤ 949 then some "NZ"
  else none

/-- Embeds `GTIN::country_code`. -/
def GTIN.country_code (g : GTIN) : Option String :=
  match g.number_system with
  | .Drug => some "US"
  | .StoreUse | .Coupon | .Isbn | .Issn | .Refund => none
  | _ =>
    match g.gs1Pre with
    | none => none
    | some p => countryNum (p.getD 0 0 * 100 + p.getD 1 0 * 10 + p.getD 2 0)

-- sanity checks against the repository's own tests
example : tryFrom "071720539774" = .ok (.UpcA [0, 7, 1, 7, 2, 0, 5, 3, 9, 7, 7, 4]) := by decide
example : tryFrom "0041303073414" = .ok (.UpcA [0, 4, 1, 3, 0, 3, 0, 7, 3, 4, 1, 4]) := by decide
example : tryFrom "04182634" = .ok (.UpcE [0, 4, 1, 8, 2, 6, 3, 4]) := by decide
example : tryFrom "52013485" = .ok (.Ean8 [5, 2, 0, 1, 3, 4, 8, 5]) := by decide
example : tryFrom "8595701530526" = .ok (.Ean13 [8, 5, 9, 5, 7, 0, 1, 5, 3, 0, 5, 2, 6]) := by
  decide
example : tryFrom "00012345678905" =
    .ok (.Gtin14 [0, 0, 0, 1, 2, 3, 4, 5, 6, 7, 8, 9, 0, 5]) := by decide
example : tryFrom "71720 53977 4" = .ok (.UpcA [0, 7, 1, 7, 2, 0, 5, 3, 9, 7, 7, 4]) := by decide
example : tryFrom "071720539775" = .error .InvalidChecksum := by decide
example : tryFrom "12345" = .error (.InvalidLength 5) := by decide
example : expand_upce_to_upca (extract_digits "04182635") =
    .ok (.UpcA (extract_digits "041800000265")) := by decide
example : expand_upce_to_upca (extract_digits "0 123450 5") =
    .ok (.UpcA (extract_digits "0 12000 00345 5")) := by decide
example : (tryFrom "9783161484100").map GTIN.number_system = .ok .Isbn := by decide
example : (tryFrom "9772434561006").map GTIN.number_system = .ok .Issn := by decide
example : (tryFrom "02 45678 1 0543 9").map GTIN.number_system = .ok .StoreUse := by decide
example : (tryFrom "8595701 530526").map GTIN.country_code = .ok (some "CZ") := by decide
example : (tryFrom "0 123450 3").map GTIN.country_code = .ok (some "US") := by decide
example : (tryFrom "5201 3485").map GTIN.country_code = .ok (some "GR") := by decide
example : (tryFrom "02 45678 1 0543 9").map GTIN.country_code = .ok none := by decide

/-! ## Specification-side definitions

These follow the words of the specification (not the code) and are used
to state the claims. -/

/-- Spec §4.2: the weight of the digit at index-from-the-right `i`:
3 for even `i`, 1 for odd `i`. -/
def specWeight (i : Nat) : Nat := if i % 2 = 0 then 3 else 1

/-- Spec §4.2: the weighted sum, written as a sum over positions
counted from the rightmost digit. -/
def specSum (l : List Nat) : Nat :=
  ∑ i in Finset.range l.length, specWeight i * l.reverse.getD i 0

/-- The checksum invariant of the data model (spec §3): the last digit
equals the check digit computed over the preceding digits. -/
def checkOk (ds : List Nat) : Prop :=
  ds.getLastD 0 = calculate_checksum_digit ds.dropLast

instance (ds : List Nat) : Decidable (checkOk ds) := by
  unfold checkOk; infer_instance

/-- The digit-sequence length each variant stores (spec §3). -/
def GTIN.storedLen : GTIN → Nat
  | .UpcE _ => 8
  | .UpcA _ => 12
  | .Ean8 _ => 8
  | .Ean13 _ => 13
  | .Gtin14 _ => 14

/-- Well-formedness of a value of the Rust `GTIN` type: the payload has
the fixed length the Rust array type imposes and every entry is a
decimal digit.  Every value the library constructs satisfies this. -/
def GTIN.WFdigits (g : GTIN) : Prop :=
  g.digits.length = g.storedLen ∧ ∀ d ∈ g.digits, d < 10

instance (g : GTIN) : Decidable g.WFdigits := by
  unfold GTIN.WFdigits; infer_instance

/-! ## Helper lemmas -/

theorem weightedAux_append_zero (m : List Nat) (k : Nat) :
    weightedAux k (m ++ [0]) = weightedAux k m := by
  induction m generalizing k with
  | nil => simp [weightedAux]
  | cons a t ih => simp [weightedAux, ih]

theorem calculate_cons_zero (l : List Nat) :
    calculate_checksum_digit (0 :: l) = calculate_checksum_digit l := by
  unfold calculate_checksum_digit weightedSum
  rw [List.reverse_cons, weightedAux_append_zero]

theorem checkOk_cons_zero (l : List Nat) (h : l ≠ []) :
    checkOk (0 :: l) ↔ checkOk l := by
  obtain ⟨b, t, rfl⟩ := List.exists_cons_of_ne_nil h
  unfold checkOk
  rw [List.getLastD_cons, List.getLastD_cons, List.dropLast_cons₂, calculate_cons_zero]

theorem checkOk_concat (l : List Nat) :
    checkOk (l ++ [calculate_checksum_digit l]) := by
  unfold checkOk
  rw [List.getLastD_concat, List.dropLast_concat]

theorem validate_iff (ds : List Nat) :
    validate_gtin ds = true ↔ 8 ≤ ds.length ∧ ds.length ≤ 14 ∧ checkOk ds := by
  unfold validate_gtin checkOk
  split
  · rename_i h
    simp only [Bool.or_eq_true, decide_eq_true_eq] at h
    simp only [Bool.false_eq_true, false_iff]
    intro hc
    obtain ⟨h1, h2, -⟩ := hc
    omega
  · rename_i h
    simp only [Bool.or_eq_true, decide_eq_true_eq, not_or, not_lt] at h
    simp only [beq_iff_eq]
    constructor
    · intro he
      exact ⟨by omega, by omega, he⟩
    · intro hc
      exact hc.2.2

theorem weightedAux_as_sum (m : List Nat) (k : Nat) :
    weightedAux k m =
      ∑ i in Finset.range m.length,
        (if (k + i) % 2 = 0 then m.getD i 0 * 3 else m.getD i 0) := by
  induction m generalizing k with
  | nil => simp [weightedAux]
  | cons a t ih =>
    rw [List.length_cons, Finset.sum_range_succ']
    simp only [List.getD_cons_succ, List.getD_cons_zero, Nat.add_zero]
    rw [weightedAux, ih (k + 1), Nat.add_comm]
    congr 1
    refine Finset.sum_congr rfl (fun i _ => ?_)
    rw [show k + (i + 1) = k + 1 + i by omega]

theorem weightedSum_eq_specSum (l : List Nat) : weightedSum l = specSum l := by
  unfold weightedSum specSum
  rw [weightedAux_as_sum]
  simp only [List.length_reverse, Nat.zero_add]
  refine Finset.sum_congr rfl (fun i _ => ?_)
  unfold specWeight
  split <;> ring

theorem weightedAux_le (m : List Nat) (k : Nat) (h : ∀ d ∈ m, d < 10) :
    weightedAux k m ≤ 27 * m.length := by
  induction m generalizing k with
  | nil => simp [weightedAux]
  | cons a t ih =>
    have ha : a < 10 := h a (by simp)
    have ht := ih (k + 1) (fun d hd => h d (by simp [hd]))
    rw [weightedAux, List.length_cons]
    split <;> omega

theorem weightedSum_lt (l : List Nat) (hd : ∀ d ∈ l, d < 10) (hl : l.length ≤ 17) :
    weightedSum l < 2 ^ 32 := by
  have := weightedAux_le l.reverse 0 (fun d h => hd d (List.mem_reverse.mp h))
  have : weightedSum l ≤ 27 * l.length := by
    unfold weightedSum
    simpa using this
  have : weightedSum l ≤ 27 * 17 := by
    have := Nat.mul_le_mul_left 27 hl
    omega
  omega

theorem digit_char_isDigit (d : Nat) (h : d < 10) :
    (Char.ofNat ((d + 48) % 256)).isDigit = true := by
  interval_cases d <;> decide

theorem digit_char_toNat (d : Nat) (h : d < 10) :
    (Char.ofNat ((d + 48) % 256)).toNat - 48 = d := by
  interval_cases d <;> decide

theorem extract_digits_of_map (ds : List Nat) (h : ∀ d ∈ ds, d < 10) :
    ((ds.map (fun d => Char.ofNat ((d + 48) % 256))).filter (fun c => c.isDigit)).map
      (fun c => c.toNat - 48) = ds := by
  induction ds with
  | nil => rfl
  | cons a t ih =>
    have ha : a < 10 := h a (List.mem_cons_self a t)
    have ht : ∀ d ∈ t, d < 10 := fun d hd => h d (List.mem_cons_of_mem a hd)
    simp only [List.map_cons, List.filter_cons, digit_char_isDigit a ha, if_true,
      digit_char_toNat a ha, ih ht]

/-- Digit extraction inverts the canonical text form on digit lists. -/
theorem extract_digits_toText (ds : List Nat) (h : ∀ d ∈ ds, d < 10) :
    extract_digits (digits_to_string ds) = ds := by
  unfold extract_digits digits_to_string
  exact extract_digits_of_map ds h

/-! ## Claims -/

/-- C1: `calculate_checksum_digit` weights digits from the right, 3× at
even index-from-the-right and 1× at odd, and returns
`(10 - (sum mod 10)) mod 10`; and `validate_gtin` is true iff the
length is in `[8, 14]` and the last digit equals the check digit of the
preceding digits (hence false for every length outside `[8, 14]`).
The digit-sequence hypotheses cover every sequence the library can pass
(spec §4.2 requires bit-exactness for lengths 7 through 17). -/
theorem C1_checksum_and_validate :
    (∀ l : List Nat, (∀ d ∈ l, d < 10) → l.length ≤ 17 →
      calculate_checksum_digit l = (10 - specSum l % 10) % 10) ∧
    (∀ l : List Nat, validate_gtin l = true ↔
      8 ≤ l.length ∧ l.length ≤ 14 ∧
        l.getLastD 0 = calculate_checksum_digit l.dropLast) := by
  constructor
  · intro l hd hl
    unfold calculate_checksum_digit
    rw [Nat.mod_eq_of_lt (weightedSum_lt l hd hl), weightedSum_eq_specSum]
  · intro l
    exact validate_iff l

/-- Witness for C1 at the 11 digits of the UPC-A `"071720539774"`
without its check digit. -/
theorem C1_witness :
    calculate_checksum_digit [0, 7, 1, 7, 2, 0, 5, 3, 9, 7, 7] =
      (10 - specSum [0, 7, 1, 7, 2, 0, 5, 3, 9, 7, 7] % 10) % 10 :=
  C1_checksum_and_validate.1 [0, 7, 1, 7, 2, 0, 5, 3, 9, 7, 7] (by decide) (by decide)

/-- C2: for every text input whose extracted digits pass validation,
classification dispatches on the digit count: 11 digits give a UPC-A
with a leading zero re-inserted (12 stored digits); 12 give UPC-A;
13 with leading digit 0 give a UPC-A with the zero stripped; 13 with a
nonzero leading digit give EAN-13; 14 give GTIN-14. -/
theorem C2_classification (s : String)
    (hv : validate_gtin (extract_digits s) = true) :
    ((extract_digits s).length = 11 →
      tryFrom s = .ok (.UpcA (0 :: extract_digits s)) ∧
        (0 :: extract_digits s).length = 12) ∧
    ((extract_digits s).length = 12 → tryFrom s = .ok (.UpcA (extract_digits s))) ∧
    ((extract_digits s).length = 13 → (extract_digits s).headD 0 = 0 →
      tryFrom s = .ok (.UpcA (extract_digits s).tail)) ∧
    ((extract_digits s).length = 13 → (extract_digits s).headD 0 ≠ 0 →
      tryFrom s = .ok (.Ean13 (extract_digits s))) ∧
    ((extract_digits s).length = 14 → tryFrom s = .ok (.Gtin14 (extract_digits s))) := by
  refine ⟨fun h => ⟨?_, by simp [h]⟩, fun h => ?_, fun h h0 => ?_, fun h h0 => ?_, fun h => ?_⟩
  · simp [tryFrom, hv, h]
  · simp [tryFrom, hv, h]
  · simp only [List.headD_eq_head?_getD] at h0
    simp [tryFrom, hv, h, h0]
  · simp only [List.headD_eq_head?_getD] at h0
    simp [tryFrom, hv, h, h0]
  · simp [tryFrom, hv, h]

/-- Witness for C2 on the repository's own test inputs: the 11-digit
repair, the 13-digit zero-strip, and the plain 13-digit EAN-13 case. -/
theorem C2_witness :
    tryFrom "71720 53977 4" = .ok (.UpcA [0, 7, 1, 7, 2, 0, 5, 3, 9, 7, 7, 4]) ∧
    tryFrom "0041303073414" = .ok (.UpcA [0, 4, 1, 3, 0, 3, 0, 7, 3, 4, 1, 4]) ∧
    tryFrom "8595701530526" = .ok (.Ean13 [8, 5, 9, 5, 7, 0, 1, 5, 3, 0, 5, 2, 6]) :=
  ⟨((C2_classification "71720 53977 4" (by decide)).1 (by decide)).1,
   (C2_classification "0041303073414" (by decide)).2.2.1 (by decide) (by decide),
   (C2_classification "8595701530526" (by decide)).2.2.2.1 (by decide) (by decide)⟩

/-- C9 (implicit): for 8 extracted digits passing the checksum, the
general entry point returns UPC-E when the leading digit is 0 and
EAN-8 when it is nonzero. -/
theorem C9_eight_digit_heuristic (s : String)
    (h8 : (extract_digits s).length = 8)
    (hv : validate_gtin (extract_digits s) = true) :
    ((extract_digits s).headD 0 = 0 → tryFrom s = .ok (.UpcE (extract_digits s))) ∧
    ((extract_digits s).headD 0 ≠ 0 → tryFrom s = .ok (.Ean8 (extract_digits s))) := by
  constructor <;> intro h0 <;>
    (simp only [List.headD_eq_head?_getD] at h0; simp [tryFrom, hv, h8, h0])

/-- Witness for C9 on the repository's own 8-digit test inputs. -/
theorem C9_witness :
    tryFrom "04182634" = .ok (.UpcE [0, 4, 1, 8, 2, 6, 3, 4]) ∧
    tryFrom "52013485" = .ok (.Ean8 [5, 2, 0, 1, 3, 4, 8, 5]) :=
  ⟨(C9_eight_digit_heuristic "04182634" (by decide) (by decide)).1 (by decide),
   (C9_eight_digit_heuristic "52013485" (by decide) (by decide)).2 (by decide)⟩

end Gtin

namespace Gtin

/-! ## UPC-E expansion: helper lemmas -/

/-- Spec §4.4 table: manufacturer and item digit groups as a function
of the six core digits `d0..d5`, selected by `d5`. -/
def specManuItem (c : List Nat) : List Nat × List Nat :=
  let d0 := c.getD 0 0
  let d1 := c.getD 1 0
  let d2 := c.getD 2 0
  let d3 := c.getD 3 0
  let d4 := c.getD 4 0
  let d5 := c.getD 5 0
  if d5 = 0 ∨ d5 = 1 ∨ d5 = 2 then ([d0, d1, d5, 0, 0], [0, 0, d2, d3, d4])
  else if d5 = 3 then ([d0, d1, d2, 0, 0], [0, 0, 0, d3, d4])
  else if d5 = 4 then ([d0, d1, d2, d3, 0], [0, 0, 0, 0, d4])
  else ([d0, d1, d2, d3, d4], [0, 0, 0, 0, d5])

/-- Spec §4.4 assembly: `[0] + manufacturer + item`, then append the
check digit of those 11 digits. -/
def specExpandCore (c : List Nat) : List Nat :=
  let body := 0 :: ((specManuItem c).1 ++ (specManuItem c).2)
  body ++ [calculate_checksum_digit body]

theorem specManuItem_len (c : List Nat) :
    (specManuItem c).1.length = 5 ∧ (specManuItem c).2.length = 5 := by
  unfold specManuItem
  dsimp only
  split_ifs <;> simp

theorem specExpandCore_len (c : List Nat) : (specExpandCore c).length = 12 := by
  unfold specExpandCore
  have := specManuItem_len c
  simp [this.1, this.2]

theorem specExpandCore_checkOk (c : List Nat) : checkOk (specExpandCore c) := by
  unfold specExpandCore
  exact checkOk_concat _

theorem specExpandCore_head (c : List Nat) : (specExpandCore c).getD 0 0 = 0 := by
  unfold specExpandCore
  rfl

theorem expand_len6 (l : List Nat) (h : l.length = 6) :
    expand_upce_to_upca l = .ok (.UpcA (specExpandCore l)) := by
  unfold expand_upce_to_upca specExpandCore specManuItem
  simp only [h]
  norm_num
  split_ifs <;> simp_all

theorem expand_len7 (l : List Nat) (h : l.length = 7) :
    expand_upce_to_upca l = .ok (.UpcA (specExpandCore (l.take 6))) := by
  unfold expand_upce_to_upca specExpandCore specManuItem
  simp only [h]
  norm_num
  split_ifs <;> simp_all

theorem expand_len8 (l : List Nat) (h : l.length = 8) :
    expand_upce_to_upca l = .ok (.UpcA (specExpandCore ((l.drop 1).take 6))) := by
  unfold expand_upce_to_upca specExpandCore specManuItem
  simp only [h]
  norm_num
  split_ifs <;> simp_all

theorem expand_bad_len (l : List Nat) (h : l.length < 6 ∨ 8 < l.length) :
    expand_upce_to_upca l = .error "Invalid UPC-E length" := by
  unfold expand_upce_to_upca
  have : (l.length < 6 || l.length > 8) = true := by
    simp only [Bool.or_eq_true, decide_eq_true_eq]
    omega
  simp [this]

/-- Every 3-digit GS1 prefix the library derives is a 3-element list. -/
theorem gs1Pre_len (g : GTIN) (p : List Nat) (hp : g.gs1Pre = some p) :
    p.length = 3 := by
  cases g with
  | UpcE d =>
    simp only [GTIN.gs1Pre] at hp
    cases hexp : expand_upce_to_upca d with
    | ok u => rw [hexp] at hp; simp at hp; subst hp; rfl
    | error e => rw [hexp] at hp; simp at hp
  | UpcA d => simp [GTIN.gs1Pre] at hp; subst hp; rfl
  | Ean8 d => simp [GTIN.gs1Pre] at hp; subst hp; rfl
  | Ean13 d => simp [GTIN.gs1Pre] at hp; subst hp; rfl
  | Gtin14 d => simp [GTIN.gs1Pre] at hp; subst hp; rfl

/-- `from_prefix` never yields `Unknown` on a 3-element prefix. -/
theorem fromPre_ne_unknown (p : List Nat) (h : p.length = 3) :
    NumberSystem.fromPre p ≠ .Unknown := by
  unfold NumberSystem.fromPre
  rw [if_neg (by omega)]
  dsimp only
  split_ifs <;> simp

/-- C4: UPC-E expansion accepts digit sequences of length 6, 7 or 8
(8: drop the first digit, keep the next 6; 7: keep the first 6; 6:
as-is), applies the d5 selection table (`specManuItem`), assembles
`[0] + manufacturer + item` plus the computed check digit
(`specExpandCore`), and fails for every other input length.  The
result always has exactly 12 digits. -/
theorem C4_upce_expansion (l : List Nat) :
    (l.length = 6 → expand_upce_to_upca l = .ok (.UpcA (specExpandCore l))) ∧
    (l.length = 7 → expand_upce_to_upca l = .ok (.UpcA (specExpandCore (l.take 6)))) ∧
    (l.length = 8 →
      expand_upce_to_upca l = .ok (.UpcA (specExpandCore ((l.drop 1).take 6)))) ∧
    (l.length ≠ 6 ∧ l.length ≠ 7 ∧ l.length ≠ 8 →
      expand_upce_to_upca l = .error "Invalid UPC-E length") ∧
    (∀ c : List Nat, (specExpandCore c).length = 12) :=
  ⟨expand_len6 l, expand_len7 l, expand_len8 l,
   fun h => expand_bad_len l (by omega), fun c => specExpandCore_len c⟩

/-- Witness for C4 on the repository's test core `"04182635"` (length
8) and on a too-short input. -/
theorem C4_witness :
    expand_upce_to_upca [0, 4, 1, 8, 2, 6, 3, 5] =
      .ok (.UpcA (specExpandCore (([0, 4, 1, 8, 2, 6, 3, 5].drop 1).take 6))) ∧
    expand_upce_to_upca [1, 2, 3] = .error "Invalid UPC-E length" :=
  ⟨(C4_upce_expansion [0, 4, 1, 8, 2, 6, 3, 5]).2.2.1 (by decide),
   (C4_upce_expansion [1, 2, 3]).2.2.2.1 (by decide)⟩

/-- C10 (implicit): UPC-E expansion succeeds on every input of length
6, 7 or 8 (the defensive 12-length branch is unreachable); hence
`gs1_prefix` is `Some` on every well-formed value, `number_system`
never returns `Unknown`, and `as_ean13` is `Some` on every UPC-E
value. -/
theorem C10_totality :
    (∀ l : List Nat, l.length = 6 ∨ l.length = 7 ∨ l.length = 8 →
      (expand_upce_to_upca l).isOk = true) ∧
    (∀ g : GTIN, g.WFdigits → g.gs1Pre.isSome = true) ∧
    (∀ g : GTIN, g.WFdigits → g.number_system ≠ .Unknown) ∧
    (∀ d : List Nat, d.length = 8 → (GTIN.UpcE d).as_ean13.isSome = true) := by
  have hok : ∀ l : List Nat, l.length = 6 ∨ l.length = 7 ∨ l.length = 8 →
      (expand_upce_to_upca l).isOk = true := by
    intro l h
    rcases h with h | h | h
    · rw [expand_len6 l h]; rfl
    · rw [expand_len7 l h]; rfl
    · rw [expand_len8 l h]; rfl
  have hsome : ∀ g : GTIN, g.WFdigits → g.gs1Pre.isSome = true := by
    intro g hwf
    cases g with
    | UpcE d =>
      have h8 : d.length = 8 := hwf.1
      simp [GTIN.gs1Pre, expand_len8 d h8]
    | UpcA d => rfl
    | Ean8 d => rfl
    | Ean13 d => rfl
    | Gtin14 d => rfl
  refine ⟨hok, hsome, ?_, ?_⟩
  · intro g hwf
    obtain ⟨p, hp⟩ := Option.isSome_iff_exists.mp (hsome g hwf)
    unfold GTIN.number_system
    rw [hp]
    exact fromPre_ne_unknown p (gs1Pre_len g p hp)
  · intro d h8
    simp [GTIN.as_ean13, expand_len8 d h8]

/-- Witness for C10 on the repository's UPC-E test value. -/
theorem C10_witness :
    (expand_upce_to_upca [1, 2, 3, 4, 5, 0]).isOk = true ∧
    (GTIN.UpcE [0, 4, 1, 8, 2, 6, 3, 4]).gs1Pre.isSome = true ∧
    (GTIN.UpcE [0, 4, 1, 8, 2, 6, 3, 4]).number_system ≠ .Unknown ∧
    (GTIN.UpcE [0, 4, 1, 8, 2, 6, 3, 4]).as_ean13.isSome = true :=
  ⟨C10_totality.1 [1, 2, 3, 4, 5, 0] (by decide),
   C10_totality.2.1 (.UpcE [0, 4, 1, 8, 2, 6, 3, 4]) (by decide),
   C10_totality.2.2.1 (.UpcE [0, 4, 1, 8, 2, 6, 3, 4]) (by decide),
   C10_totality.2.2.2 [0, 4, 1, 8, 2, 6, 3, 4] (by decide)⟩

/-! ## Shape of successful classification -/

/-- Any successful `TryFrom` run validated its digits and landed in one
of the five dispatch branches. -/
theorem tryFrom_ok_shape (s : String) (v : GTIN) (h : tryFrom s = .ok v) :
    validate_gtin (extract_digits s) = true ∧
    (((extract_digits s).length = 8 ∧
        (((extract_digits s).headD 0 ≠ 0 ∧ v = .Ean8 (extract_digits s)) ∨
          ((extract_digits s).headD 0 = 0 ∧ v = .UpcE (extract_digits s)))) ∨
      ((extract_digits s).length = 11 ∧ v = .UpcA (0 :: extract_digits s)) ∨
      ((extract_digits s).length = 12 ∧ v = .UpcA (extract_digits s)) ∨
      ((extract_digits s).length = 13 ∧
        (((extract_digits s).headD 0 = 0 ∧ v = .UpcA (extract_digits s).tail) ∨
          ((extract_digits s).headD 0 ≠ 0 ∧ v = .Ean13 (extract_digits s)))) ∨
      ((extract_digits s).length = 14 ∧ v = .Gtin14 (extract_digits s))) := by
  simp only [tryFrom] at h
  by_cases hv : validate_gtin (extract_digits s) = true
  · refine ⟨hv, ?_⟩
    rw [hv] at h
    simp only [Bool.not_true, Bool.false_eq_true, if_false] at h
    repeat' split at h
    all_goals simp_all
  · rw [Bool.not_eq_true] at hv
    rw [hv] at h
    simp only [Bool.not_false, if_true] at h
    split at h <;> simp_all

/-- C3: every value produced by a public constructor — classification,
`parse_ean8`, `parse_upce`, `as_ean13`, UPC-E expansion — satisfies the
checksum invariant: the last stored digit equals the check digit of the
preceding digits.  In particular the 11-digit leading-zero repair, the
13-digit leading-zero strip and the `as_ean13` padding preserve
validity, and expansion appends a freshly computed check digit. -/
theorem C3_checksum_invariant :
    (∀ (s : String) (v : GTIN), tryFrom s = .ok v → checkOk v.digits) ∧
    (∀ (s : String) (v : GTIN), GTIN.parse_ean8 s = .ok v → checkOk v.digits) ∧
    (∀ (s : String) (v : GTIN), GTIN.parse_upce s = .ok v → checkOk v.digits) ∧
    (∀ (g w : GTIN), g.WFdigits → checkOk g.digits → g.as_ean13 = some w →
      checkOk w.digits) ∧
    (∀ (l : List Nat) (v : GTIN), expand_upce_to_upca l = .ok v → checkOk v.digits) := by
  refine ⟨?_, ?_, ?_, ?_, ?_⟩
  · intro s v h
    obtain ⟨hv, hd⟩ := tryFrom_ok_shape s v h
    obtain ⟨-, -, hchk⟩ := (validate_iff _).mp hv
    rcases hd with ⟨h8, hc⟩ | ⟨h11, rfl⟩ | ⟨h12, rfl⟩ | ⟨h13, hc⟩ | ⟨h14, rfl⟩
    · rcases hc with ⟨-, rfl⟩ | ⟨-, rfl⟩ <;> exact hchk
    · exact (checkOk_cons_zero _ (by intro e; rw [e] at h11; simp at h11)).mpr hchk
    · exact hchk
    · rcases hc with ⟨h0, rfl⟩ | ⟨-, rfl⟩
      · have hne : extract_digits s ≠ [] := by intro e; rw [e] at h13; simp at h13
        obtain ⟨a, t, he⟩ := List.exists_cons_of_ne_nil hne
        rw [he] at h0 hchk h13 ⊢
        simp only [List.headD_cons] at h0
        subst h0
        have hne2 : t ≠ [] := by intro e; rw [e] at h13; simp at h13
        exact (checkOk_cons_zero t hne2).mp hchk
      · exact hchk
    · exact hchk
  · intro s v h
    by_cases h8 : (extract_digits s).length = 8
    · by_cases hv : validate_gtin (extract_digits s) = true
      · simp [GTIN.parse_ean8, h8, hv] at h
        subst h
        exact ((validate_iff _).mp hv).2.2
      · simp [GTIN.parse_ean8, h8, hv] at h
    · simp [GTIN.parse_ean8, h8] at h
  · intro s v h
    by_cases h8 : (extract_digits s).length = 8
    · by_cases hv : validate_gtin (extract_digits s) = true
      · simp [GTIN.parse_upce, h8, hv] at h
        subst h
        exact ((validate_iff _).mp hv).2.2
      · simp [GTIN.parse_upce, h8, hv] at h
    · simp [GTIN.parse_upce, h8] at h
  · intro g w hwf hchk hsome
    cases g with
    | Ean13 d =>
      simp [GTIN.as_ean13] at hsome
      subst hsome
      exact hchk
    | UpcA d =>
      simp [GTIN.as_ean13] at hsome
      subst hsome
      have hne : d ≠ [] := by
        intro e
        have := hwf.1
        rw [e] at this
        simp [GTIN.digits, GTIN.storedLen] at this
      exact (checkOk_cons_zero d hne).mpr hchk
    | UpcE d =>
      have h8 : d.length = 8 := hwf.1
      simp [GTIN.as_ean13, expand_len8 d h8, GTIN.digits] at hsome
      subst hsome
      have hlen := specExpandCore_len (d.tail.take 6)
      refine (checkOk_cons_zero _ ?_).mpr (specExpandCore_checkOk (d.tail.take 6))
      intro e
      rw [e] at hlen
      simp at hlen
    | Ean8 d => simp [GTIN.as_ean13] at hsome
    | Gtin14 d => simp [GTIN.as_ean13] at hsome
  · intro l v h
    by_cases hin : l.length = 6 ∨ l.length = 7 ∨ l.length = 8
    · rcases hin with h6 | h7 | h8
      · rw [expand_len6 l h6] at h
        simp only [Except.ok.injEq] at h
        subst h
        exact specExpandCore_checkOk l
      · rw [expand_len7 l h7] at h
        simp only [Except.ok.injEq] at h
        subst h
        exact specExpandCore_checkOk (l.take 6)
      · rw [expand_len8 l h8] at h
        simp only [Except.ok.injEq] at h
        subst h
        exact specExpandCore_checkOk ((l.drop 1).take 6)
    · rw [expand_bad_len l (by omega)] at h
      simp at h

/-- Witness for C3: the invariant at values built by classification
(with the 11-digit repair) and by expansion. -/
theorem C3_witness :
    checkOk (GTIN.UpcA [0, 7, 1, 7, 2, 0, 5, 3, 9, 7, 7, 4]).digits ∧
    checkOk (GTIN.UpcA (specExpandCore [1, 2, 3, 4, 5, 0])).digits :=
  ⟨C3_checksum_invariant.1 "71720 53977 4" (GTIN.UpcA [0, 7, 1, 7, 2, 0, 5, 3, 9, 7, 7, 4])
      (by decide),
   C3_checksum_invariant.2.2.2.2 [1, 2, 3, 4, 5, 0]
      (GTIN.UpcA (specExpandCore [1, 2, 3, 4, 5, 0])) (expand_len6 _ (by decide))⟩

/-- C5 counterexample: `parse_upce` constructs
`UpcE [1,2,3,4,5,6,7,0]` (valid checksum, nonzero leading digit) —
mirroring the repository's own `explicit_parse_upce` test — yet
re-parsing its canonical digit string yields an `Ean8`, not the
original value, and this value is not an `Ean13` zero-padded UPC-A. -/
theorem C5_counterexample :
    GTIN.parse_upce "12345670" = .ok (GTIN.UpcE [1, 2, 3, 4, 5, 6, 7, 0]) ∧
    tryFrom (GTIN.UpcE [1, 2, 3, 4, 5, 6, 7, 0]).toText =
      .ok (GTIN.Ean8 [1, 2, 3, 4, 5, 6, 7, 0]) ∧
    GTIN.Ean8 [1, 2, 3, 4, 5, 6, 7, 0] ≠ GTIN.UpcE [1, 2, 3, 4, 5, 6, 7, 0] :=
  ⟨by decide, by decide, by decide⟩

/-- C5 (amended): parsing the canonical digit string returns the value
unchanged for every well-formed, checksum-valid value except the
heuristic collapses: an `Ean13` with leading digit 0 (the documented
zero-padding collapse), a `UpcE` with nonzero leading digit and an
`Ean8` with leading digit 0 (both constructible only through the
forcing entry points, and re-classified by the 8-digit leading-digit
heuristic). -/
theorem C5_roundtrip_amended (v : GTIN) (hwf : v.WFdigits) (hchk : checkOk v.digits)
    (hupce : ∀ d, v = .UpcE d → d.headD 0 = 0)
    (hean8 : ∀ d, v = .Ean8 d → d.headD 0 ≠ 0)
    (hean13 : ∀ d, v = .Ean13 d → d.headD 0 ≠ 0) :
    tryFrom v.toText = .ok v := by
  cases v with
  | UpcE d =>
    have hlen : d.length = 8 := hwf.1
    have hex : extract_digits (GTIN.UpcE d).toText = d := extract_digits_toText d hwf.2
    have hv : validate_gtin d = true := (validate_iff d).mpr ⟨by omega, by omega, hchk⟩
    have h0 : d.headD 0 = 0 := hupce d rfl
    simp only [List.headD_eq_head?_getD] at h0
    simp [tryFrom, hex, hv, hlen, h0]
  | UpcA d =>
    have hlen : d.length = 12 := hwf.1
    have hex : extract_digits (GTIN.UpcA d).toText = d := extract_digits_toText d hwf.2
    have hv : validate_gtin d = true := (validate_iff d).mpr ⟨by omega, by omega, hchk⟩
    simp [tryFrom, hex, hv, hlen]
  | Ean8 d =>
    have hlen : d.length = 8 := hwf.1
    have hex : extract_digits (GTIN.Ean8 d).toText = d := extract_digits_toText d hwf.2
    have hv : validate_gtin d = true := (validate_iff d).mpr ⟨by omega, by omega, hchk⟩
    have h0 : d.headD 0 ≠ 0 := hean8 d rfl
    simp only [List.headD_eq_head?_getD] at h0
    simp [tryFrom, hex, hv, hlen, h0]
  | Ean13 d =>
    have hlen : d.length = 13 := hwf.1
    have hex : extract_digits (GTIN.Ean13 d).toText = d := extract_digits_toText d hwf.2
    have hv : validate_gtin d = true := (validate_iff d).mpr ⟨by omega, by omega, hchk⟩
    have h0 : d.headD 0 ≠ 0 := hean13 d rfl
    simp only [List.headD_eq_head?_getD] at h0
    simp [tryFrom, hex, hv, hlen, h0]
  | Gtin14 d =>
    have hlen : d.length = 14 := hwf.1
    have hex : extract_digits (GTIN.Gtin14 d).toText = d := extract_digits_toText d hwf.2
    have hv : validate_gtin d = true := (validate_iff d).mpr ⟨by omega, by omega, hchk⟩
    simp [tryFrom, hex, hv, hlen]

/-- Witness for C5 on a UPC-A and a GTIN-14 value. -/
theorem C5_witness :
    tryFrom (GTIN.UpcA [0, 7, 1, 7, 2, 0, 5, 3, 9, 7, 7, 4]).toText =
      .ok (GTIN.UpcA [0, 7, 1, 7, 2, 0, 5, 3, 9, 7, 7, 4]) ∧
    tryFrom (GTIN.Gtin14 [0, 0, 0, 1, 2, 3, 4, 5, 6, 7, 8, 9, 0, 5]).toText =
      .ok (GTIN.Gtin14 [0, 0, 0, 1, 2, 3, 4, 5, 6, 7, 8, 9, 0, 5]) :=
  ⟨C5_roundtrip_amended (GTIN.UpcA [0, 7, 1, 7, 2, 0, 5, 3, 9, 7, 7, 4])
      (by decide) (by decide)
      (fun d h => GTIN.noConfusion h) (fun d h => GTIN.noConfusion h)
      (fun d h => GTIN.noConfusion h),
   C5_roundtrip_amended (GTIN.Gtin14 [0, 0, 0, 1, 2, 3, 4, 5, 6, 7, 8, 9, 0, 5])
      (by decide) (by decide)
      (fun d h => GTIN.noConfusion h) (fun d h => GTIN.noConfusion h)
      (fun d h => GTIN.noConfusion h)⟩

/-! ## Error-path characterization of the entry points -/

theorem tryFrom_isOk_of (s : String) (hv : validate_gtin (extract_digits s) = true)
    (hl : (extract_digits s).length = 8 ∨ (extract_digits s).length = 11 ∨
      (extract_digits s).length = 12 ∨ (extract_digits s).length = 13 ∨
      (extract_digits s).length = 14) :
    (tryFrom s).isOk = true := by
  rcases hl with h | h | h | h | h <;>
    simp only [tryFrom, hv, h, Bool.not_true, Bool.false_eq_true, if_false] <;>
    norm_num <;>
    first
      | rfl
      | (split_ifs <;> rfl)

theorem tryFrom_910 (s : String) (hv : validate_gtin (extract_digits s) = true)
    (hl : (extract_digits s).length = 9 ∨ (extract_digits s).length = 10) :
    tryFrom s = .error (.InvalidLength (extract_digits s).length) := by
  rcases hl with h | h <;> simp [tryFrom, hv, h]

theorem tryFrom_invalid_checksum (s : String)
    (hv : validate_gtin (extract_digits s) = false)
    (h8 : 8 ≤ (extract_digits s).length) (h14 : (extract_digits s).length ≤ 14) :
    tryFrom s = .error .InvalidChecksum := by
  have hc : ((extract_digits s).length < 8 || (extract_digits s).length > 14) = false := by
    simp only [Bool.or_eq_false_iff, decide_eq_false_iff_not]
    omega
  simp [tryFrom, hv, hc]

theorem tryFrom_outside (s : String)
    (h : (extract_digits s).length < 8 ∨ 14 < (extract_digits s).length) :
    tryFrom s = .error (.InvalidLength (extract_digits s).length) := by
  have hv : validate_gtin (extract_digits s) = false := by
    rw [← Bool.not_eq_true]
    intro hc
    obtain ⟨a, b, -⟩ := (validate_iff _).mp hc
    omega
  have hc : ((extract_digits s).length < 8 || (extract_digits s).length > 14) = true := by
    simp only [Bool.or_eq_true, decide_eq_true_eq]
    omega
  simp [tryFrom, hv, hc]

theorem tryFrom_IL_iff (s : String) :
    tryFrom s = .error (.InvalidLength (extract_digits s).length) ↔
      ((extract_digits s).length < 8 ∨ 14 < (extract_digits s).length ∨
        (((extract_digits s).length = 9 ∨ (extract_digits s).length = 10) ∧
          validate_gtin (extract_digits s) = true)) := by
  by_cases hv : validate_gtin (extract_digits s) = true
  · obtain ⟨h8, h14, hchk⟩ := (validate_iff _).mp hv
    by_cases h910 : (extract_digits s).length = 9 ∨ (extract_digits s).length = 10
    · exact ⟨fun _ => Or.inr (Or.inr ⟨h910, hv⟩), fun _ => tryFrom_910 s hv h910⟩
    · have ht := tryFrom_isOk_of s hv (by omega)
      constructor
      · intro hc
        rw [hc] at ht
        simp [Except.isOk, Except.toBool] at ht
      · intro hc
        rcases hc with a | a | ⟨a, -⟩
        · omega
        · omega
        · exact absurd a h910
  · have hvf : validate_gtin (extract_digits s) = false := by
      rw [← Bool.not_eq_true]
      exact hv
    by_cases hout : (extract_digits s).length < 8 ∨ 14 < (extract_digits s).length
    · exact ⟨fun _ => hout.imp id Or.inl, fun _ => tryFrom_outside s hout⟩
    · have ht := tryFrom_invalid_checksum s hvf (by omega) (by omega)
      constructor
      · intro hc
        rw [ht] at hc
        simp at hc
      · intro hc
        rcases hc with a | a | ⟨-, b⟩
        · omega
        · omega
        · rw [b] at hvf
          simp at hvf

theorem tryFrom_IL_payload (s : String) (m : Nat)
    (h : tryFrom s = .error (.InvalidLength m)) : m = (extract_digits s).length := by
  by_cases hv : validate_gtin (extract_digits s) = true
  · obtain ⟨h8, h14, -⟩ := (validate_iff _).mp hv
    by_cases h910 : (extract_digits s).length = 9 ∨ (extract_digits s).length = 10
    · have ht := (tryFrom_910 s hv h910).symm.trans h
      simp only [Except.error.injEq, GtinError.InvalidLength.injEq] at ht
      exact ht.symm
    · have ht := tryFrom_isOk_of s hv (by omega)
      rw [h] at ht
      simp [Except.isOk, Except.toBool] at ht
  · have hvf : validate_gtin (extract_digits s) = false := by
      rw [← Bool.not_eq_true]
      exact hv
    by_cases hout : (extract_digits s).length < 8 ∨ 14 < (extract_digits s).length
    · have ht := (tryFrom_outside s hout).symm.trans h
      simp only [Except.error.injEq, GtinError.InvalidLength.injEq] at ht
      exact ht.symm
    · have ht := (tryFrom_invalid_checksum s hvf (by omega) (by omega)).symm.trans h
      simp at ht

theorem tryFrom_IC_iff (s : String) :
    tryFrom s = .error .InvalidChecksum ↔
      (8 ≤ (extract_digits s).length ∧ (extract_digits s).length ≤ 14 ∧
        ¬ checkOk (extract_digits s)) := by
  by_cases hv : validate_gtin (extract_digits s) = true
  · obtain ⟨h8, h14, hchk⟩ := (validate_iff _).mp hv
    by_cases h910 : (extract_digits s).length = 9 ∨ (extract_digits s).length = 10
    · have ht := tryFrom_910 s hv h910
      rw [ht]
      simp [hchk]
    · have ht := tryFrom_isOk_of s hv (by omega)
      constructor
      · intro hc
        rw [hc] at ht
        simp [Except.isOk, Except.toBool] at ht
      · intro hc
        exact absurd hchk hc.2.2
  · have hvf : validate_gtin (extract_digits s) = false := by
      rw [← Bool.not_eq_true]
      exact hv
    by_cases hout : (extract_digits s).length < 8 ∨ 14 < (extract_digits s).length
    · have ht := tryFrom_outside s hout
      rw [ht]
      constructor
      · intro hc
        simp at hc
      · intro hc
        obtain ⟨a, b, -⟩ := hc
        omega
    · have ht := tryFrom_invalid_checksum s hvf (by omega) (by omega)
      refine ⟨fun _ => ⟨by omega, by omega, fun hck => ?_⟩, fun _ => ht⟩
      have := (validate_iff _).mpr ⟨by omega, by omega, hck⟩
      rw [this] at hvf
      simp at hvf

/-- `parse_ean8` with `validate_gtin` resolved to the checksum
condition (the length test subsumes the range test). -/
theorem parse_ean8_eq (s : String) :
    GTIN.parse_ean8 s =
      (if (extract_digits s).length ≠ 8 then .error (.InvalidLength (extract_digits s).length)
        else if ¬ checkOk (extract_digits s) then .error .InvalidChecksum
        else .ok (.Ean8 (extract_digits s))) := by
  by_cases h8 : (extract_digits s).length = 8
  · by_cases hck : checkOk (extract_digits s)
    · have hv := (validate_iff _).mpr ⟨by omega, by omega, hck⟩
      simp [GTIN.parse_ean8, h8, hv, hck]
    · have hv : validate_gtin (extract_digits s) = false := by
        rw [← Bool.not_eq_true]
        intro hc
        exact hck ((validate_iff _).mp hc).2.2
      simp [GTIN.parse_ean8, h8, hv, hck]
  · simp [GTIN.parse_ean8, h8]

/-- `parse_upce` with `validate_gtin` resolved to the checksum
condition. -/
theorem parse_upce_eq (s : String) :
    GTIN.parse_upce s =
      (if (extract_digits s).length ≠ 8 then .error (.InvalidLength (extract_digits s).length)
        else if ¬ checkOk (extract_digits s) then .error .InvalidChecksum
        else .ok (.UpcE (extract_digits s))) := by
  by_cases h8 : (extract_digits s).length = 8
  · by_cases hck : checkOk (extract_digits s)
    · have hv := (validate_iff _).mpr ⟨by omega, by omega, hck⟩
      simp [GTIN.parse_upce, h8, hv, hck]
    · have hv : validate_gtin (extract_digits s) = false := by
        rw [← Bool.not_eq_true]
        intro hc
        exact hck ((validate_iff _).mp hc).2.2
      simp [GTIN.parse_upce, h8, hv, hck]
  · simp [GTIN.parse_upce, h8]

/-- C6 counterexample: `"123456784"` extracts 9 digits with a passing
checksum; the general entry point fails with `InvalidLength(9)`
although 9 lies inside `[8, 14]`, so "`InvalidLength(n)` exactly when
`n` is outside `[8, 14]`" is false. -/
theorem C6_counterexample :
    tryFrom "123456784" = .error (.InvalidLength 9) ∧
    8 ≤ (extract_digits "123456784").length ∧
    (extract_digits "123456784").length ≤ 14 ∧
    validate_gtin (extract_digits "123456784") = true :=
  ⟨by decide, by decide, by decide, by decide⟩

/-- C6 (amended): the general entry point fails with `InvalidLength(n)`
exactly when the digit count `n` is outside `[8, 14]` **or** `n` is 9
or 10 with a passing checksum (those counts survive validation but
have no dispatch branch); it fails with `InvalidChecksum` exactly when
`n` is in `[8, 14]` and the last digit fails the mod-10 check;
`parse_ean8` and `parse_upce` fail with `InvalidLength(n)` exactly
when `n ≠ 8`, fail with `InvalidChecksum` exactly when the 8 digits
fail the check, and on success force the requested variant. -/
theorem C6_errors_amended (s : String) :
    (tryFrom s = .error (.InvalidLength (extract_digits s).length) ↔
      ((extract_digits s).length < 8 ∨ 14 < (extract_digits s).length ∨
        (((extract_digits s).length = 9 ∨ (extract_digits s).length = 10) ∧
          validate_gtin (extract_digits s) = true))) ∧
    (∀ m : Nat, tryFrom s = .error (.InvalidLength m) → m = (extract_digits s).length) ∧
    (tryFrom s = .error .InvalidChecksum ↔
      (8 ≤ (extract_digits s).length ∧ (extract_digits s).length ≤ 14 ∧
        ¬ checkOk (extract_digits s))) ∧
    (GTIN.parse_ean8 s = .error (.InvalidLength (extract_digits s).length) ↔
      (extract_digits s).length ≠ 8) ∧
    (∀ m : Nat, GTIN.parse_ean8 s = .error (.InvalidLength m) →
      m = (extract_digits s).length) ∧
    (GTIN.parse_ean8 s = .error .InvalidChecksum ↔
      ((extract_digits s).length = 8 ∧ ¬ checkOk (extract_digits s))) ∧
    (∀ v : GTIN, GTIN.parse_ean8 s = .ok v ↔
      ((extract_digits s).length = 8 ∧ checkOk (extract_digits s) ∧
        v = .Ean8 (extract_digits s))) ∧
    (GTIN.parse_upce s = .error (.InvalidLength (extract_digits s).length) ↔
      (extract_digits s).length ≠ 8) ∧
    (∀ m : Nat, GTIN.parse_upce s = .error (.InvalidLength m) →
      m = (extract_digits s).length) ∧
    (GTIN.parse_upce s = .error .InvalidChecksum ↔
      ((extract_digits s).length = 8 ∧ ¬ checkOk (extract_digits s))) ∧
    (∀ v : GTIN, GTIN.parse_upce s = .ok v ↔
      ((extract_digits s).length = 8 ∧ checkOk (extract_digits s) ∧
        v = .UpcE (extract_digits s))) := by
  refine ⟨tryFrom_IL_iff s, tryFrom_IL_payload s, tryFrom_IC_iff s, ?_, ?_, ?_, ?_, ?_, ?_, ?_, ?_⟩
  · rw [parse_ean8_eq]
    split_ifs <;> simp_all
  · intro m hm
    rw [parse_ean8_eq] at hm
    split_ifs at hm <;> simp_all
  · rw [parse_ean8_eq]
    split_ifs <;> simp_all
  · intro v
    rw [parse_ean8_eq]
    split_ifs <;> simp_all
    exact eq_comm
  · rw [parse_upce_eq]
    split_ifs <;> simp_all
  · intro m hm
    rw [parse_upce_eq] at hm
    split_ifs at hm <;> simp_all
  · rw [parse_upce_eq]
    split_ifs <;> simp_all
  · intro v
    rw [parse_upce_eq]
    split_ifs <;> simp_all
    exact eq_comm

/-- Witness for C6 at the repository's own error-path and
forced-variant test inputs. -/
theorem C6_witness :
    tryFrom "12345" = .error (.InvalidLength (extract_digits "12345").length) ∧
    GTIN.parse_ean8 "04182634" = .ok (.Ean8 [0, 4, 1, 8, 2, 6, 3, 4]) ∧
    GTIN.parse_upce "52013485" = .ok (.UpcE [5, 2, 0, 1, 3, 4, 8, 5]) :=
  ⟨(C6_errors_amended "12345").1.mpr (by decide),
   ((C6_errors_amended "04182634").2.2.2.2.2.2.1 (.Ean8 [0, 4, 1, 8, 2, 6, 3, 4])).mpr
      (by decide),
   ((C6_errors_amended "52013485").2.2.2.2.2.2.2.2.2.2 (.UpcE [5, 2, 0, 1, 3, 4, 8, 5])).mpr
      (by decide)⟩

/-- The numeric value of a 3-digit GS1 prefix, `p0*100 + p1*10 + p2`
(spec §4.5). -/
def prefVal (p : List Nat) : Nat :=
  p.getD 0 0 * 100 + p.getD 1 0 * 10 + p.getD 2 0

/-- C7: the GS1 prefix of each variant is derived as specified (EAN-13
and EAN-8: first three digits; UPC-A: `[0, d0, d1]`; UPC-E: expand to
UPC-A first; GTIN-14: digits at positions 1, 2, 3), `number_system`
maps the prefix through `from_prefix` (`Unknown` when no prefix is
available), and `from_prefix` classifies the prefix value by the
spec's ranges, `General` otherwise. -/
theorem C7_gs1_and_number_system :
    (∀ d : List Nat, (GTIN.Ean13 d).gs1Pre = some [d.getD 0 0, d.getD 1 0, d.getD 2 0]) ∧
    (∀ d : List Nat, (GTIN.Ean8 d).gs1Pre = some [d.getD 0 0, d.getD 1 0, d.getD 2 0]) ∧
    (∀ d : List Nat, (GTIN.UpcA d).gs1Pre = some [0, d.getD 0 0, d.getD 1 0]) ∧
    (∀ d : List Nat, (GTIN.Gtin14 d).gs1Pre = some [d.getD 1 0, d.getD 2 0, d.getD 3 0]) ∧
    (∀ d : List Nat, d.length = 8 → ∃ u : List Nat,
      expand_upce_to_upca d = .ok (.UpcA u) ∧
        (GTIN.UpcE d).gs1Pre = some [0, u.getD 0 0, u.getD 1 0]) ∧
    (∀ (g : GTIN) (p : List Nat), g.gs1Pre = some p →
      g.number_system = NumberSystem.fromPre p) ∧
    (∀ g : GTIN, g.gs1Pre = none → g.number_system = .Unknown) ∧
    (∀ p : List Nat, p.length = 3 →
      (NumberSystem.fromPre p = .StoreUse ↔
        ((20 ≤ prefVal p ∧ prefVal p ≤ 29) ∨ (40 ≤ prefVal p ∧ prefVal p ≤ 49) ∨
          (200 ≤ prefVal p ∧ prefVal p ≤ 299))) ∧
      (NumberSystem.fromPre p = .Drug ↔ (30 ≤ prefVal p ∧ prefVal p ≤ 39)) ∧
      (NumberSystem.fromPre p = .Coupon ↔
        ((50 ≤ prefVal p ∧ prefVal p ≤ 59) ∨ (981 ≤ prefVal p ∧ prefVal p ≤ 984) ∨
          (990 ≤ prefVal p ∧ prefVal p ≤ 999))) ∧
      (NumberSystem.fromPre p = .Issn ↔ prefVal p = 977) ∧
      (NumberSystem.fromPre p = .Isbn ↔ (978 ≤ prefVal p ∧ prefVal p ≤ 979)) ∧
      (NumberSystem.fromPre p = .Refund ↔ prefVal p = 980) ∧
      (NumberSystem.fromPre p = .General ↔
        ¬(((20 ≤ prefVal p ∧ prefVal p ≤ 29) ∨ (40 ≤ prefVal p ∧ prefVal p ≤ 49) ∨
            (200 ≤ prefVal p ∧ prefVal p ≤ 299)) ∨
          (30 ≤ prefVal p ∧ prefVal p ≤ 39) ∨
          ((50 ≤ prefVal p ∧ prefVal p ≤ 59) ∨ (981 ≤ prefVal p ∧ prefVal p ≤ 984) ∨
            (990 ≤ prefVal p ∧ prefVal p ≤ 999)) ∨
          prefVal p = 977 ∨ (978 ≤ prefVal p ∧ prefVal p ≤ 979) ∨ prefVal p = 980))) := by
  refine ⟨fun d => rfl, fun d => rfl, fun d => rfl, fun d => rfl, ?_, ?_, ?_, ?_⟩
  · intro d h8
    refine ⟨specExpandCore ((d.drop 1).take 6), expand_len8 d h8, ?_⟩
    simp [GTIN.gs1Pre, expand_len8 d h8, GTIN.digits]
  · intro g p hp
    unfold GTIN.number_system
    rw [hp]
  · intro g hp
    unfold GTIN.number_system
    rw [hp]
  · intro p h3
    unfold NumberSystem.fromPre prefVal
    rw [if_neg (by omega)]
    dsimp only
    generalize p.getD 0 0 * 100 + p.getD 1 0 * 10 + p.getD 2 0 = n
    split_ifs <;>
      refine ⟨?_, ?_, ?_, ?_, ?_, ?_, ?_⟩ <;>
      simp_all <;>
      omega

/-- Witness for C7: prefix derivation on the repository's EAN-13 and
UPC-E test values, and the ISBN range classification. -/
theorem C7_witness :
    (GTIN.Ean13 [8, 5, 9, 5, 7, 0, 1, 5, 3, 0, 5, 2, 6]).gs1Pre = some [8, 5, 9] ∧
    (∃ u : List Nat, expand_upce_to_upca [0, 4, 1, 8, 2, 6, 3, 4] = .ok (.UpcA u) ∧
      (GTIN.UpcE [0, 4, 1, 8, 2, 6, 3, 4]).gs1Pre = some [0, u.getD 0 0, u.getD 1 0]) ∧
    NumberSystem.fromPre [9, 7, 8] = .Isbn :=
  ⟨C7_gs1_and_number_system.1 [8, 5, 9, 5, 7, 0, 1, 5, 3, 0, 5, 2, 6],
   C7_gs1_and_number_system.2.2.2.2.1 [0, 4, 1, 8, 2, 6, 3, 4] (by decide),
   ((C7_gs1_and_number_system.2.2.2.2.2.2.2 [9, 7, 8] (by decide)).2.2.2.2.1).mpr (by decide)⟩

/-- Spec §6 country table as range rows `(lo, hi, ISO-2)`.  The spec's
row "390 (Kosovo, no ISO-2)" defines no ISO-2 code, so 390 is not a
row of this table; what the code does at 390 is stated separately. -/
def specCountryRanges : List (Nat × Nat × String) :=
  [(0, 139, "US"), (300, 379, "FR"), (380, 380, "BG"), (383, 383, "SI"), (385, 385, "HR"),
   (387, 387, "BA"), (389, 389, "ME"), (400, 440, "DE"), (450, 459, "JP"), (460, 469, "RU"),
   (470, 470, "KG"), (471, 471, "TW"), (474, 474, "EE"), (490, 499, "JP"), (500, 509, "GB"),
   (520, 521, "GR"), (539, 539, "IE"), (540, 549, "BE"), (570, 579, "DK"), (590, 590, "PL"),
   (599, 599, "HU"), (618, 618, "CI"), (619, 619, "TN"), (640, 649, "FI"), (700, 709, "NO"),
   (730, 739, "SE"), (742, 742, "HN"), (750, 750, "MX"), (754, 755, "CA"), (759, 759, "VE"),
   (760, 769, "CH"), (773, 773, "UY"), (789, 790, "BR"), (800, 839, "IT"), (840, 849, "ES"),
   (858, 858, "SK"), (859, 859, "CZ"), (860, 860, "RS"), (870, 879, "NL"), (885, 885, "TH"),
   (888, 888, "SG"), (900, 919, "AT"), (930, 939, "AU"), (940, 949, "NZ")]

/-- Spec §6 lookup: the ISO-2 code of the first matching range, `none`
when no range matches. -/
def specCountry (n : Nat) : Option String :=
  (specCountryRanges.find? (fun r => decide (r.1 ≤ n) && decide (n ≤ r.2.1))).map
    (fun r => r.2.2)

set_option maxRecDepth 8000 in
set_option maxHeartbeats 1000000 in
/-- The code's range chain agrees with the spec's §6 table everywhere
below 1000 except at 390. -/
theorem countryNum_agrees (n : Nat) (h1 : n < 1000) (h2 : n ≠ 390) :
    countryNum n = specCountry n := by
  have hall : ∀ m, m < 1000 → (m ≠ 390 → countryNum m = specCountry m) := by decide
  exact hall n h1 h2

/-- No range of the code's chain reaches 1000. -/
theorem countryNum_none (n : Nat) (hn : 999 < n) : countryNum n = none := by
  unfold countryNum
  repeat rw [if_neg (by omega)]

/-- C8 counterexample: for prefix value 390 the code returns
`Some "KOSOVO"` (a placeholder that is not an ISO-2 code), not `None`
as the claim states; the spec's §6 table itself assigns no country to
390. -/
theorem C8_counterexample :
    (GTIN.Ean13 [3, 9, 0, 0, 0, 0, 0, 0, 0, 0, 0, 0, 0]).country_code = some "KOSOVO" ∧
    (GTIN.Ean13 [3, 9, 0, 0, 0, 0, 0, 0, 0, 0, 0, 0, 0]).country_code ≠ none ∧
    specCountry 390 = none :=
  ⟨by decide, by decide, by decide⟩

/-- C8 (amended): `country_code` returns `"US"` for `Drug`, `None` for
`StoreUse`/`Coupon`/`Isbn`/`Issn`/`Refund`, and otherwise the ISO-2
code the §6 range table assigns to the prefix value — except that for
prefix value 390, where the table names Kosovo but defines no ISO-2
code, the code returns the placeholder string `"KOSOVO"` rather than
no country; `None` when no range matches or no prefix is derivable. -/
theorem C8_country_amended :
    (∀ g : GTIN, g.number_system = .Drug → g.country_code = some "US") ∧
    (∀ g : GTIN, (g.number_system = .StoreUse ∨ g.number_system = .Coupon ∨
        g.number_system = .Isbn ∨ g.number_system = .Issn ∨ g.number_system = .Refund) →
      g.country_code = none) ∧
    (∀ (g : GTIN) (p : List Nat),
      (g.number_system = .General ∨ g.number_system = .Unknown) → g.gs1Pre = some p →
      g.country_code = countryNum (prefVal p)) ∧
    (∀ g : GTIN, g.gs1Pre = none → g.country_code = none) ∧
    (∀ n : Nat, n < 1000 → n ≠ 390 → countryNum n = specCountry n) ∧
    countryNum 390 = some "KOSOVO" ∧
    (∀ n : Nat, 999 < n → countryNum n = none) := by
  refine ⟨?_, ?_, ?_, ?_, ?_, by decide, ?_⟩
  · intro g h
    simp [GTIN.country_code, h]
  · intro g h
    rcases h with h | h | h | h | h <;> simp [GTIN.country_code, h]
  · intro g p hns hp
    rcases hns with h | h <;> simp [GTIN.country_code, h, hp, prefVal]
  · intro g h
    have hu : g.number_system = .Unknown := by
      unfold GTIN.number_system
      rw [h]
    simp [GTIN.country_code, hu, h]
  · exact countryNum_agrees
  · exact countryNum_none

/-- Witness for C8: a Drug-range value maps to `"US"`, and the code's
table agrees with the spec's table at 859 (`"CZ"`). -/
theorem C8_witness :
    (GTIN.Ean13 [0, 3, 5, 0, 0, 0, 0, 0, 0, 0, 0, 0, 0]).country_code = some "US" ∧
    countryNum 859 = specCountry 859 ∧
    countryNum 1000 = none :=
  ⟨C8_country_amended.1 (GTIN.Ean13 [0, 3, 5, 0, 0, 0, 0, 0, 0, 0, 0, 0, 0]) (by decide),
   C8_country_amended.2.2.2.2.1 859 (by decide) (by decide),
   C8_country_amended.2.2.2.2.2.2 1000 (by decide)⟩

end Gtin
